import Mathlib

/-!
Verification of the Untis-App-API chat service (`src/api.py`).

Shallow embedding conventions:
* Push channels (FastAPI `WebSocket` handles) are identified by natural numbers.
* `ConnectionManager.active_connections` is a `defaultdict(list)`; we model it
  as a total function `String → List Channel` whose default value is `[]`
  (a school absent from the dict and a school mapped to the empty list behave
  identically in `disconnect` and `broadcast`).
* The SQLite database is a `Store` of three relevant tables (`requests`,
  `messages`, `chat_bans`) kept as lists in insertion (rowid) order, with
  `AUTOINCREMENT` modelled by explicit next-id counters.
* Python strings used as message bodies are `List Char`; `str.strip()` is
  `pyStrip` (drop whitespace from both ends).  School and user names only ever
  undergo equality comparison and stay `String`.
* Endpoint handlers become pure functions returning the new store together
  with a trace of externally visible `Action`s (database commits and
  fire-and-forget broadcasts), in the order the source performs them.
  An HTTP error raised by a handler is an error value; since every `raise`
  in the source happens before any `INSERT`/`UPDATE` is committed (the
  connection is closed without commit, rolling back), an error leaves the
  store unchanged, which the model makes explicit.
* The word filter `check_word_filter` compiles a configurable regex list; we
  abstract it as an arbitrary boolean predicate parameter.
-/

namespace UntisApp

/-- A live WebSocket handle, identified by a number. -/
abbrev Channel := Nat

/-- `ConnectionManager.active_connections`: per-school lists of channels,
`defaultdict(list)` modelled as a total function with default `[]`. -/
abbrev Registry := String → List Channel

namespace ConnectionManager

/-- `ConnectionManager.disconnect` (src/api.py:37-42): replace the school's
list by the sublist of connections different from `websocket`. -/
def disconnect (reg : Registry) (websocket : Channel) (school : String) : Registry :=
  fun s => if s = school then (reg s).filter (fun conn => conn != websocket) else reg s

/-- `ConnectionManager.broadcast` (src/api.py:44-54): iterate over a snapshot
of the school's list, attempt `send_json` on each connection (outcome given by
`sendOk`), collect the failed ones, then `disconnect` each failed connection.
Returns the list of connections that received the event and the new registry.
If the school has no entry the method returns at once. -/
def broadcast (reg : Registry) (school : String) (sendOk : Channel → Bool) :
    List Channel × Registry :=
  ((reg school).filter sendOk,
   ((reg school).filter (fun c => !(sendOk c))).foldl
     (fun r conn => disconnect r conn school) reg)

end ConnectionManager

/-- A row of the `requests` table (`username` is UNIQUE). -/
structure RequestRow where
  id : Nat
  school : String
  username : String
  status : String
deriving DecidableEq

/-- A row of the `messages` table.  `sent_at` is not modelled as data: rows
are appended in send order and `datetime('now')` is nondecreasing, so recency
is the list/rowid order (see `Chronological`). -/
structure MessageRow where
  id : Nat
  school : String
  username : String
  message : List Char
  deleted : Bool
deriving DecidableEq

/-- A row of the `chat_bans` table (UNIQUE on (school, username)). -/
structure BanRow where
  id : Nat
  school : String
  username : String
  active : Bool
deriving DecidableEq

/-- The SQLite database state. -/
structure Store where
  nextRequestId : Nat
  nextMessageId : Nat
  nextBanId : Nat
  requests : List RequestRow
  messages : List MessageRow
  chat_bans : List BanRow
deriving DecidableEq

/-- WebSocket events broadcast by the handlers. -/
inductive Event where
  | messageNew (id : Nat) (username : String) (message : List Char) (deleted : Bool)
  | messageDeleted (id : Nat) (school : String)
  | messageRestored (id : Nat) (username : Option String) (message : Option (List Char))
      (school : String)
deriving DecidableEq

/-- Externally visible side effects of a handler, in program order:
a database `commit` making the given store durable, or the scheduling of a
`manager.broadcast` task (`asyncio.create_task`). -/
inductive Action where
  | commit (st : Store)
  | broadcast (school : String) (event : Event)
deriving DecidableEq

/-- Python `str.strip()` on a list of characters: remove leading and trailing
whitespace. -/
def pyStrip (s : List Char) : List Char :=
  ((s.dropWhile Char.isWhitespace).reverse.dropWhile Char.isWhitespace).reverse

/-- The errors `send_message` can raise (`HTTPException`s of src/api.py:258-310):
403 content filter, 403 "User not approved", 403 banned, 400 length. -/
inductive SendError where
  | contentRejected
  | notApproved
  | banned
  | invalidLength
deriving DecidableEq

/-- The store after the `INSERT INTO messages` of src/api.py:292-297:
append a fresh non-deleted row holding the stripped body. -/
def insertedStore (st : Store) (school username : String) (message : List Char) : Store :=
  { st with
      messages := st.messages ++
        [{ id := st.nextMessageId, school := school, username := username,
           message := pyStrip message, deleted := false }],
      nextMessageId := st.nextMessageId + 1 }

/-- `send_message` (src/api.py:258-310).  In source order: word-filter check,
approved-request check (`status = 'approved'` for the exact school/username),
active-ban check, length check on the stripped body, then INSERT + commit and
finally `asyncio.create_task(manager.broadcast ...)` of a `message_new` event.
Every `raise` happens before the INSERT, so on error the store is unchanged
and no action is performed.  Result: (store, action trace, error). -/
def send_message (check_word_filter : List Char → Bool) (st : Store)
    (school username : String) (message : List Char) :
    Store × List Action × Option SendError :=
  if check_word_filter message then (st, [], some .contentRejected)
  else if !(st.requests.any fun r =>
      r.school == school && r.username == username && r.status == "approved") then
    (st, [], some .notApproved)
  else if st.chat_bans.any (fun b =>
      b.school == school && b.username == username && b.active) then
    (st, [], some .banned)
  else if (pyStrip message).length < 2 || (pyStrip message).length > 500 then
    (st, [], some .invalidLength)
  else
    (insertedStore st school username message,
     [Action.commit (insertedStore st school username message),
      Action.broadcast school
        (Event.messageNew st.nextMessageId username (pyStrip message) false)],
     none)

/-- Result of the moderation gate embedded in `send_message`
(src/api.py:270-285). -/
inductive GateResult where
  | allowed
  | notApproved
  | banned
deriving DecidableEq

/-- The moderation gate of `send_message` (src/api.py:270-285): first the
approved-request query (403 "User not approved" when it returns no row), then
the active-ban query (403 banned when it returns a row). -/
def may_post (st : Store) (school username : String) : GateResult :=
  if !(st.requests.any fun r =>
      r.school == school && r.username == username && r.status == "approved") then
    .notApproved
  else if st.chat_bans.any (fun b =>
      b.school == school && b.username == username && b.active) then
    .banned
  else .allowed

/-- One element of the `get_messages` response (src/api.py:326-335). -/
structure MessageOut where
  id : Nat
  username : String
  message : List Char
  deleted : Bool
deriving DecidableEq

/-- `get_messages` (src/api.py:312-335): `SELECT ... WHERE school = ? ORDER BY
sent_at DESC LIMIT 100`, masking the body to the empty string when `deleted`.
`sent_at` values of stored rows increase with insertion order (rows are only
created with `datetime('now')`), so `ORDER BY sent_at DESC` is the reverse of
the insertion-ordered table. -/
def get_messages (st : Store) (school : String) : List MessageOut :=
  (((st.messages.filter fun m => m.school == school).reverse).take 100).map fun m =>
    { id := m.id, username := m.username,
      message := if m.deleted then [] else m.message,
      deleted := m.deleted }

/-- The store after the `UPDATE messages SET deleted = 1 WHERE id = ? AND
school = ?` of src/api.py:507-510. -/
def deleteUpdated (st : Store) (school : String) (message_id : Nat) : Store :=
  { st with
      messages := st.messages.map fun m =>
        if m.id == message_id && m.school == school then { m with deleted := true } else m }

/-- `admin_delete_message` (src/api.py:503-520): unconditional UPDATE setting
`deleted = 1` (a no-op when no row matches), commit, then broadcast of a
`message_deleted` event with {id, school}.  No error path exists. -/
def admin_delete_message (st : Store) (school : String) (message_id : Nat) :
    Store × List Action :=
  (deleteUpdated st school message_id,
   [Action.commit (deleteUpdated st school message_id),
    Action.broadcast school (Event.messageDeleted message_id school)])

/-- The store after the `UPDATE messages SET deleted = 0 WHERE id = ? AND
school = ?` of src/api.py:531-535. -/
def restoreUpdated (st : Store) (school : String) (message_id : Nat) : Store :=
  { st with
      messages := st.messages.map fun m =>
        if m.id == message_id && m.school == school then { m with deleted := false } else m }

/-- `admin_restore_message` (src/api.py:522-546): SELECT the row first; if
found, UPDATE `deleted = 0` and commit; in both cases broadcast a
`message_restored` event carrying the found row's username/body, or `none`
for both when no row matched. -/
def admin_restore_message (st : Store) (school : String) (message_id : Nat) :
    Store × List Action :=
  match st.messages.find? (fun m => m.id == message_id && m.school == school) with
  | some row =>
      (restoreUpdated st school message_id,
       [Action.commit (restoreUpdated st school message_id),
        Action.broadcast school
          (Event.messageRestored message_id (some row.username) (some row.message) school)])
  | none =>
      (st, [Action.broadcast school (Event.messageRestored message_id none none school)])

/-- `create_request` (src/api.py:170-184): INSERT a row whose `status` is the
one supplied by the client; the UNIQUE constraint on `username` raises
`sqlite3.IntegrityError` on a duplicate username (regardless of school), which
the handler converts to a 409; the connection closes without commit, so the
store is unchanged.  Result: (store, conflict?); `true` means 409. -/
def create_request (st : Store) (school username status : String) : Store × Bool :=
  if st.requests.any (fun r => r.username == username) then (st, true)
  else
    ({ st with
        requests := st.requests ++
          [{ id := st.nextRequestId, school := school, username := username,
             status := status }],
        nextRequestId := st.nextRequestId + 1 },
     false)

/-- `admin_new_ban` (src/api.py:580-596): INSERT an active ban; the UNIQUE
constraint on (school, username) raises `sqlite3.IntegrityError` on a
duplicate, which the handler swallows (`except ...: pass`), leaving the store
unchanged and reporting no failure. -/
def admin_new_ban (st : Store) (school username : String) : Store :=
  if st.chat_bans.any (fun b => b.school == school && b.username == username) then st
  else
    { st with
        chat_bans := st.chat_bans ++
          [{ id := st.nextBanId, school := school, username := username, active := true }],
        nextBanId := st.nextBanId + 1 }

/-- Stores produced by the API have their message rows in chronological
(insertion) order: ids strictly increase along the list, and `sent_at`
increases with id. -/
def Chronological (st : Store) : Prop :=
  st.messages.Pairwise fun a b => a.id < b.id

/-! ## Example stores used by concrete witnesses and counterexamples -/

/-- The freshly created database. -/
def emptyStore : Store :=
  { nextRequestId := 1, nextMessageId := 1, nextBanId := 1,
    requests := [], messages := [], chat_bans := [] }

/-- "alice" has an approved request at school "east"; no messages, no bans. -/
def approvedStore : Store :=
  { nextRequestId := 2, nextMessageId := 1, nextBanId := 1,
    requests := [{ id := 1, school := "east", username := "alice", status := "approved" }],
    messages := [], chat_bans := [] }

/-- "alice" approved at "east" but with an active ban. -/
def bannedStore : Store :=
  { approvedStore with
      chat_bans := [{ id := 1, school := "east", username := "alice", active := true }],
      nextBanId := 2 }

/-- "alice" approved at "east" with a lifted (inactive) ban row. -/
def liftedBanStore : Store :=
  { approvedStore with
      chat_bans := [{ id := 1, school := "east", username := "alice", active := false }],
      nextBanId := 2 }

/-- Two messages at "east": id 1 by "alice" (live) and id 2 by "bob"
(soft-deleted). -/
def msgStore : Store :=
  { approvedStore with
      messages :=
        [{ id := 1, school := "east", username := "alice", message := ['h', 'i'],
           deleted := false },
         { id := 2, school := "east", username := "bob", message := ['y', 'o'],
           deleted := true }],
      nextMessageId := 3 }

/-! ## Registry lemmas -/

lemma foldl_disconnect_apply (L : List Channel) (reg : Registry) (school s : String) :
    (L.foldl (fun r conn => ConnectionManager.disconnect r conn school) reg) s =
      if s = school then (reg s).filter (fun c => !(L.contains c)) else reg s := by
  induction L generalizing reg with
  | nil =>
      simp only [List.foldl_nil, List.contains_nil, Bool.not_false, List.filter_true]
      split <;> rfl
  | cons c L ih =>
      rw [List.foldl_cons, ih]
      simp only [ConnectionManager.disconnect]
      split
      · rw [List.filter_filter]
        apply List.filter_congr
        intro x _
        simp [bne, Bool.not_or, Bool.and_comm, Bool.beq_eq_decide_eq]
      · rfl

lemma broadcast_fst (reg : Registry) (school : String) (sendOk : Channel → Bool) :
    (ConnectionManager.broadcast reg school sendOk).1 = (reg school).filter sendOk := rfl

lemma broadcast_snd_self (reg : Registry) (school : String) (sendOk : Channel → Bool) :
    (ConnectionManager.broadcast reg school sendOk).2 school = (reg school).filter sendOk := by
  simp only [ConnectionManager.broadcast]
  rw [foldl_disconnect_apply, if_pos rfl]
  apply List.filter_congr
  intro x hx
  cases hsx : sendOk x <;> simp [List.contains, List.mem_filter, hx, hsx]

lemma broadcast_snd_other (reg : Registry) (school s : String) (sendOk : Channel → Bool)
    (h : s ≠ school) :
    (ConnectionManager.broadcast reg school sendOk).2 s = reg s := by
  simp only [ConnectionManager.broadcast]
  rw [foldl_disconnect_apply, if_neg h]

/-- C1: `ConnectionManager.broadcast` delivers the event to exactly those
channels registered under the school whose send succeeds — a send failure on
one channel never prevents delivery to another — and afterwards exactly the
failed channels are gone from that school's partition (with N registered
channels and k failures, N − k are delivered to), while every other partition
is untouched; for a school with no registered channels it delivers nothing and
leaves the whole registry unchanged. -/
theorem broadcast_delivers_and_prunes (reg : Registry) (school : String)
    (sendOk : Channel → Bool) :
    (ConnectionManager.broadcast reg school sendOk).1 = (reg school).filter sendOk ∧
    (ConnectionManager.broadcast reg school sendOk).2 school = (reg school).filter sendOk ∧
    (∀ s, s ≠ school → (ConnectionManager.broadcast reg school sendOk).2 s = reg s) ∧
    (reg school).length =
      ((ConnectionManager.broadcast reg school sendOk).1).length +
        ((reg school).filter (fun c => !(sendOk c))).length ∧
    (∀ c ∈ reg school, sendOk c = false →
      c ∉ (ConnectionManager.broadcast reg school sendOk).2 school) ∧
    (reg school = [] →
      (ConnectionManager.broadcast reg school sendOk).1 = [] ∧
      (ConnectionManager.broadcast reg school sendOk).2 = reg) := by
  refine ⟨broadcast_fst .., broadcast_snd_self .., fun s hs => broadcast_snd_other _ _ _ _ hs,
    ?_, ?_, ?_⟩
  · rw [broadcast_fst]
    exact List.length_eq_length_filter_add sendOk
  · intro c hc hfail
    rw [broadcast_snd_self]
    intro hmem
    rcases List.mem_filter.mp hmem with ⟨-, hok⟩
    rw [hfail] at hok
    exact Bool.false_ne_true hok
  · intro hempty
    constructor
    · rw [broadcast_fst, hempty]
      rfl
    · funext s
      by_cases hs : s = school
      · subst hs
        rw [broadcast_snd_self, hempty]
        rfl
      · exact broadcast_snd_other _ _ _ _ hs

/-- Witness for C1: registry with channels 1, 2, 3 under "east", channel 2's
send fails; "west" stays untouched and 2 is pruned from "east". -/
theorem broadcast_delivers_and_prunes_witness :
    (("west" : String) ≠ "east" ∧
      (ConnectionManager.broadcast (fun s => if s = "east" then [1, 2, 3] else []) "east"
          (fun c => c != 2)).2 "west" =
        (fun s : String => if s = "east" then ([1, 2, 3] : List Channel) else []) "west") ∧
    ((2 : Channel) ∈ (fun s : String => if s = "east" then ([1, 2, 3] : List Channel) else []) "east" ∧
      ((fun c : Channel => c != 2) 2) = false ∧
      (2 : Channel) ∉ (ConnectionManager.broadcast
          (fun s => if s = "east" then [1, 2, 3] else []) "east" (fun c => c != 2)).2 "east") :=
  ⟨⟨by decide,
    (broadcast_delivers_and_prunes (fun s => if s = "east" then [1, 2, 3] else []) "east"
      (fun c => c != 2)).2.2.1 "west" (by decide)⟩,
   ⟨by decide, by decide,
    (broadcast_delivers_and_prunes (fun s => if s = "east" then [1, 2, 3] else []) "east"
      (fun c => c != 2)).2.2.2.2.1 2 (by decide) (by decide)⟩⟩

/-- C9: `ConnectionManager.disconnect` is idempotent — removing a channel that
is not registered under the school leaves the registry unchanged, and applying
`disconnect` twice with the same arguments equals applying it once. -/
theorem disconnect_idempotent (reg : Registry) (ws : Channel) (school : String) :
    (ws ∉ reg school → ConnectionManager.disconnect reg ws school = reg) ∧
    ConnectionManager.disconnect (ConnectionManager.disconnect reg ws school) ws school =
      ConnectionManager.disconnect reg ws school := by
  constructor
  · intro h
    funext s
    simp only [ConnectionManager.disconnect]
    split
    · next heq =>
        subst heq
        rw [List.filter_eq_self]
        intro a ha
        simp only [bne_iff_ne, ne_eq, decide_eq_true_eq]
        exact fun hne => h (hne ▸ ha)
    · rfl
  · funext s
    by_cases hs : s = school
    · subst hs
      simp [ConnectionManager.disconnect, List.filter_filter, Bool.and_self]
    · simp [ConnectionManager.disconnect, hs]

/-- Witness for C9: channel 7 is not registered under "east"; disconnecting it
is a no-op. -/
theorem disconnect_idempotent_witness :
    (7 : Channel) ∉ (fun s : String => if s = "east" then ([5] : List Channel) else []) "east" ∧
    ConnectionManager.disconnect
        (fun s : String => if s = "east" then ([5] : List Channel) else []) 7 "east" =
      (fun s : String => if s = "east" then ([5] : List Channel) else []) :=
  ⟨by decide,
   (disconnect_idempotent (fun s : String => if s = "east" then ([5] : List Channel) else [])
      7 "east").1 (by decide)⟩

/-- C3: the moderation gate allows posting iff an approved request exists for
the exact (school, username) pair and no active ban row exists for it; the two
denial reasons are distinguished ("not approved" when no approved request,
"banned" when approved but actively banned), so flipping either condition
independently flips the result. -/
theorem may_post_spec (st : Store) (school username : String) :
    (may_post st school username = GateResult.allowed ↔
      ((∃ r ∈ st.requests, r.school = school ∧ r.username = username ∧ r.status = "approved") ∧
        ¬∃ b ∈ st.chat_bans, b.school = school ∧ b.username = username ∧ b.active = true)) ∧
    (may_post st school username = GateResult.notApproved ↔
      ¬∃ r ∈ st.requests, r.school = school ∧ r.username = username ∧ r.status = "approved") ∧
    (may_post st school username = GateResult.banned ↔
      ((∃ r ∈ st.requests, r.school = school ∧ r.username = username ∧ r.status = "approved") ∧
        ∃ b ∈ st.chat_bans, b.school = school ∧ b.username = username ∧ b.active = true)) := by
  have hA : (st.requests.any fun r =>
      r.school == school && r.username == username && r.status == "approved") = true ↔
      (∃ r ∈ st.requests, r.school = school ∧ r.username = username ∧ r.status = "approved") := by
    simp [List.any_eq_true, and_assoc]
  have hB : (st.chat_bans.any fun b =>
      b.school == school && b.username == username && b.active) = true ↔
      (∃ b ∈ st.chat_bans, b.school = school ∧ b.username = username ∧ b.active = true) := by
    simp [List.any_eq_true, and_assoc]
  rw [← hA, ← hB]
  simp only [may_post]
  cases hA' : (st.requests.any fun r =>
      r.school == school && r.username == username && r.status == "approved")
  · simp
  · cases hB' : (st.chat_bans.any fun b =>
        b.school == school && b.username == username && b.active) <;> simp

/-- C2: a rejected `send_message` call (content filter, approval, ban, or
length) leaves the store unchanged and performs no commit and no broadcast; a
successful call appends exactly one non-deleted message row and its action
trace is the commit of the new store followed by the `message_new` broadcast,
so persistence happens-before broadcast initiation. -/
theorem send_message_persist_before_broadcast (f : List Char → Bool) (st : Store)
    (school username : String) (message : List Char) :
    ((send_message f st school username message).2.2.isSome →
      (send_message f st school username message).1 = st ∧
      (send_message f st school username message).2.1 = []) ∧
    ((send_message f st school username message).2.2 = none →
      ∃ row : MessageRow,
        (send_message f st school username message).1.messages = st.messages ++ [row] ∧
        row.deleted = false ∧
        (send_message f st school username message).2.1 =
          [Action.commit (send_message f st school username message).1,
           Action.broadcast school (Event.messageNew row.id username row.message false)]) := by
  constructor
  · intro h
    simp only [send_message] at h ⊢
    split_ifs at h ⊢ <;> simp_all
  · intro h
    simp only [send_message] at h ⊢
    split_ifs at h ⊢
    simp_all [insertedStore]

/-- Witness for C2: a clean, approved, unbanned send of "hi" succeeds, and the
trace commits the inserted row before broadcasting it. -/
theorem send_message_persist_before_broadcast_witness :
    (send_message (fun _ => false) approvedStore "east" "alice" ['h', 'i']).2.2 = none ∧
    ∃ row : MessageRow,
      (send_message (fun _ => false) approvedStore "east" "alice" ['h', 'i']).1.messages =
        approvedStore.messages ++ [row] ∧
      row.deleted = false ∧
      (send_message (fun _ => false) approvedStore "east" "alice" ['h', 'i']).2.1 =
        [Action.commit (send_message (fun _ => false) approvedStore "east" "alice" ['h', 'i']).1,
         Action.broadcast "east" (Event.messageNew row.id "alice" row.message false)] :=
  ⟨by decide,
   (send_message_persist_before_broadcast (fun _ => false) approvedStore "east" "alice"
      ['h', 'i']).2 (by decide)⟩

/-- Counterexample to C4 as stated: "alice" is approved, unbanned, and the
body is content-clean (the filter accepts everything), yet a body of raw
length 2 — two spaces — is rejected with `InvalidLength`, because the length
check applies to the stripped body, whose length is 0. -/
theorem send_length_counterexample :
    ([' ', ' '] : List Char).length = 2 ∧
    (send_message (fun _ => false) approvedStore "east" "alice" [' ', ' ']).2.2 =
      some SendError.invalidLength := by
  exact ⟨rfl, by decide⟩

/-- C4 amended: for every allowed, content-clean sender, `send_message`
rejects with `InvalidLength` exactly when the stripped body's length lies
outside the inclusive range [2, 500] — in particular stripped lengths 1 and
501 always fail and stripped lengths 2 and 500 always succeed. -/
theorem send_length_boundaries (f : List Char → Bool) (st : Store)
    (school username : String) (message : List Char)
    (hclean : f message = false)
    (happroved : (st.requests.any fun r =>
      r.school == school && r.username == username && r.status == "approved") = true)
    (hnoban : (st.chat_bans.any fun b =>
      b.school == school && b.username == username && b.active) = false) :
    ((send_message f st school username message).2.2 = some SendError.invalidLength ↔
      ((pyStrip message).length < 2 ∨ 500 < (pyStrip message).length)) ∧
    ((send_message f st school username message).2.2 = none ↔
      (2 ≤ (pyStrip message).length ∧ (pyStrip message).length ≤ 500)) := by
  by_cases h2 : (pyStrip message).length < 2
  · simp [send_message, hclean, happroved, hnoban, h2]
    try omega
  · by_cases h500 : 500 < (pyStrip message).length
    · simp [send_message, hclean, happroved, hnoban, h2, h500]
      try omega
    · simp [send_message, hclean, happroved, hnoban, h2, h500]
      try omega

/-- Witness for C4 amended: the two-character body "hi" (stripped length 2)
sent by the approved, unbanned "alice" through an accepting filter succeeds. -/
theorem send_length_boundaries_witness :
    ((fun _ : List Char => false) ['h', 'i']) = false ∧
    (approvedStore.requests.any fun r =>
      r.school == "east" && r.username == "alice" && r.status == "approved") = true ∧
    (approvedStore.chat_bans.any fun b =>
      b.school == "east" && b.username == "alice" && b.active) = false ∧
    ((send_message (fun _ => false) approvedStore "east" "alice" ['h', 'i']).2.2 = none ↔
      (2 ≤ (pyStrip ['h', 'i']).length ∧ (pyStrip ['h', 'i']).length ≤ 500)) :=
  ⟨rfl, by decide, by decide,
   (send_length_boundaries (fun _ => false) approvedStore "east" "alice" ['h', 'i']
      rfl (by decide) (by decide)).2⟩

/-- C5: `get_messages` returns at most 100 items, most-recent-first (for a
chronologically stored table the returned ids strictly decrease), and each
returned item reflects a stored row of that school with the body masked to
the empty string exactly when the row is soft-deleted, the `deleted` flag
itself always being exposed. -/
theorem get_messages_spec (st : Store) (school : String) (h : Chronological st) :
    (get_messages st school).length ≤ 100 ∧
    ((get_messages st school).Pairwise fun a b => b.id < a.id) ∧
    (∀ o ∈ get_messages st school, ∃ m ∈ st.messages,
      m.school = school ∧ o.id = m.id ∧ o.username = m.username ∧
      o.deleted = m.deleted ∧ o.message = (if m.deleted then [] else m.message)) := by
  refine ⟨?_, ?_, ?_⟩
  · simp only [get_messages, List.length_map, List.length_take]
    exact Nat.min_le_left _ _
  · simp only [get_messages]
    rw [List.pairwise_map]
    apply List.Pairwise.sublist (List.take_sublist _ _)
    rw [List.pairwise_reverse]
    exact (h.filter _).imp fun hab => hab
  · intro o ho
    simp only [get_messages, List.mem_map] at ho
    rcases ho with ⟨m, hm, rfl⟩
    rcases List.mem_filter.mp (List.mem_reverse.mp (List.mem_of_mem_take hm)) with ⟨hmem, hsch⟩
    exact ⟨m, hmem, by simpa using hsch, rfl, rfl, rfl, rfl⟩

/-- Witness for C5 at `msgStore` (chronological): the "east" listing masks the
deleted row and keeps the live one. -/
theorem get_messages_spec_witness :
    Chronological msgStore ∧
    ((get_messages msgStore "east").length ≤ 100 ∧
      ((get_messages msgStore "east").Pairwise fun a b => b.id < a.id) ∧
      (∀ o ∈ get_messages msgStore "east", ∃ m ∈ msgStore.messages,
        m.school = "east" ∧ o.id = m.id ∧ o.username = m.username ∧
        o.deleted = m.deleted ∧ o.message = (if m.deleted then [] else m.message))) :=
  ⟨by unfold Chronological; decide, get_messages_spec msgStore "east" (by unfold Chronological; decide)⟩

/-- C6: `admin_delete_message` has no NotFound path: when a row with the given
id and school exists it reappears with `deleted = true` (all non-matching rows
are kept as they are), when no row matches the store is unchanged, and in both
cases the trace is the commit followed by the broadcast of a `message_deleted`
event carrying the id and the school. -/
theorem admin_delete_message_spec (st : Store) (school : String) (message_id : Nat) :
    ((∀ m ∈ st.messages, ¬(m.id = message_id ∧ m.school = school)) →
      (admin_delete_message st school message_id).1 = st) ∧
    (∀ m ∈ st.messages, m.id = message_id ∧ m.school = school →
      ({ m with deleted := true } : MessageRow) ∈
        (admin_delete_message st school message_id).1.messages) ∧
    (∀ m ∈ (admin_delete_message st school message_id).1.messages,
      m.id = message_id ∧ m.school = school → m.deleted = true) ∧
    (∀ m ∈ st.messages, ¬(m.id = message_id ∧ m.school = school) →
      m ∈ (admin_delete_message st school message_id).1.messages) ∧
    (admin_delete_message st school message_id).2 =
      [Action.commit (admin_delete_message st school message_id).1,
       Action.broadcast school (Event.messageDeleted message_id school)] := by
  refine ⟨?_, ?_, ?_, ?_, rfl⟩
  · intro hno
    simp only [admin_delete_message, deleteUpdated]
    have hmap : (st.messages.map fun m =>
        if m.id == message_id && m.school == school then { m with deleted := true } else m) =
        st.messages := by
      rw [List.map_congr_left (g := id), List.map_id]
      intro a ha
      rw [if_neg]
      · rfl
      · simp only [Bool.and_eq_true, beq_iff_eq]
        exact hno a ha
    rw [hmap]
  · intro m hm hmatch
    refine List.mem_map.mpr ⟨m, hm, ?_⟩
    rw [if_pos]
    simp [hmatch.1, hmatch.2]
  · intro m hm hmatch
    rcases List.mem_map.mp hm with ⟨a, ha, rfl⟩
    by_cases hc : (a.id == message_id && a.school == school) = true
    · simp [hc]
    · rw [if_neg hc] at hmatch ⊢
      exact absurd (by simp [hmatch.1, hmatch.2]) hc
  · intro m hm hnot
    refine List.mem_map.mpr ⟨m, hm, ?_⟩
    rw [if_neg]
    simp only [Bool.and_eq_true, beq_iff_eq]
    exact hnot

/-- Witness for C6: deleting the absent id 99 leaves `msgStore` unchanged
(and still broadcasts, per the theorem's last conjunct). -/
theorem admin_delete_message_spec_witness :
    (∀ m ∈ msgStore.messages, ¬(m.id = 99 ∧ m.school = "east")) ∧
    (admin_delete_message msgStore "east" 99).1 = msgStore :=
  ⟨by decide, (admin_delete_message_spec msgStore "east" 99).1 (by decide)⟩

/-- C7: `admin_restore_message` looks the row up first; when a row with the
given id and school exists, matching rows come back with `deleted = false` and
the trace is the commit followed by a `message_restored` broadcast carrying
the found row's username and body; when no row matches, the store is unchanged
but the `message_restored` event is still broadcast with null username and
body. -/
theorem admin_restore_message_spec (st : Store) (school : String) (message_id : Nat) :
    ((∃ m ∈ st.messages, m.id = message_id ∧ m.school = school) →
      ∃ row ∈ st.messages, row.id = message_id ∧ row.school = school ∧
        (∀ m ∈ (admin_restore_message st school message_id).1.messages,
          m.id = message_id ∧ m.school = school → m.deleted = false) ∧
        (admin_restore_message st school message_id).2 =
          [Action.commit (admin_restore_message st school message_id).1,
           Action.broadcast school
             (Event.messageRestored message_id (some row.username) (some row.message) school)]) ∧
    ((¬∃ m ∈ st.messages, m.id = message_id ∧ m.school = school) →
      (admin_restore_message st school message_id).1 = st ∧
      (admin_restore_message st school message_id).2 =
        [Action.broadcast school (Event.messageRestored message_id none none school)]) := by
  constructor
  · intro hex
    have hsome : (st.messages.find? fun m => m.id == message_id && m.school == school).isSome := by
      rw [List.find?_isSome]
      rcases hex with ⟨m, hm, h1, h2⟩
      exact ⟨m, hm, by simp [h1, h2]⟩
    rcases hrow : st.messages.find? (fun m => m.id == message_id && m.school == school) with _ | row
    · rw [hrow] at hsome
      simp at hsome
    · have hp := List.find?_some hrow
      simp only [Bool.and_eq_true, beq_iff_eq] at hp
      refine ⟨row, List.mem_of_find?_eq_some hrow, hp.1, hp.2, ?_, ?_⟩
      · intro m hm hmatch
        simp only [admin_restore_message, hrow, restoreUpdated] at hm
        rcases List.mem_map.mp hm with ⟨a, ha, rfl⟩
        by_cases hc : (a.id == message_id && a.school == school) = true
        · simp [hc]
        · rw [if_neg hc] at hmatch ⊢
          exact absurd (by simp [hmatch.1, hmatch.2]) hc
      · simp only [admin_restore_message, hrow]
  · intro hnone
    have h0 : st.messages.find? (fun m => m.id == message_id && m.school == school) = none := by
      rw [List.find?_eq_none]
      intro x hx hq
      simp only [Bool.and_eq_true, beq_iff_eq] at hq
      exact hnone ⟨x, hx, hq.1, hq.2⟩
    exact ⟨by simp [admin_restore_message, h0], by simp [admin_restore_message, h0]⟩

/-- Witness for C7: restoring the absent id 99 leaves `msgStore` unchanged and
still broadcasts a `message_restored` event with null username and body. -/
theorem admin_restore_message_spec_witness :
    (¬∃ m ∈ msgStore.messages, m.id = 99 ∧ m.school = "east") ∧
    ((admin_restore_message msgStore "east" 99).1 = msgStore ∧
      (admin_restore_message msgStore "east" 99).2 =
        [Action.broadcast "east" (Event.messageRestored 99 none none "east")]) :=
  ⟨by decide, (admin_restore_message_spec msgStore "east" 99).2 (by decide)⟩

/-- Counterexample to C8 as stated: `create_request` inserts the status
supplied by the client verbatim (src/api.py:177-180), so a request created
with status "approved" is stored as "approved", not as "pending". -/
theorem create_request_counterexample :
    (create_request emptyStore "east" "alice" "approved").2 = false ∧
    (create_request emptyStore "east" "alice" "approved").1.requests =
      [{ id := 1, school := "east", username := "alice", status := "approved" }] ∧
    ("approved" : String) ≠ "pending" :=
  ⟨by decide, by decide, by decide⟩

/-- C8 amended: POST /new_request creates a request whose status is the one
supplied by the client; a second insertion with the same username — with any
school — fails with a 409 Conflict while leaving the store, in particular the
first row, unchanged: inserting the same username twice yields exactly one
success and one Conflict. -/
theorem create_request_unique (st st' : Store)
    (school school2 username status status2 : String) :
    ((¬∃ r ∈ st.requests, r.username = username) →
      create_request st school username status =
        ({ st with
            requests := st.requests ++
              [{ id := st.nextRequestId, school := school, username := username,
                 status := status }],
            nextRequestId := st.nextRequestId + 1 }, false)) ∧
    ((∃ r ∈ st'.requests, r.username = username) →
      create_request st' school2 username status2 = (st', true)) ∧
    ((¬∃ r ∈ st.requests, r.username = username) →
      (create_request (create_request st school username status).1 school2 username status2).2 =
        true ∧
      (create_request (create_request st school username status).1 school2 username status2).1 =
        (create_request st school username status).1) := by
  have hfst : ∀ s : Store, (¬∃ r ∈ s.requests, r.username = username) →
      create_request s school username status =
        ({ s with
            requests := s.requests ++
              [{ id := s.nextRequestId, school := school, username := username,
                 status := status }],
            nextRequestId := s.nextRequestId + 1 }, false) := by
    intro s hs
    have hany : (s.requests.any fun r => r.username == username) = false := by
      rw [List.any_eq_false]
      intro r hr
      simp only [beq_iff_eq]
      exact fun h => hs ⟨r, hr, h⟩
    simp [create_request, hany]
  have hdup : ∀ s : Store, (∃ r ∈ s.requests, r.username = username) →
      create_request s school2 username status2 = (s, true) := by
    intro s hs
    rcases hs with ⟨r, hr, hu⟩
    have hany : (s.requests.any fun r => r.username == username) = true :=
      List.any_eq_true.mpr ⟨r, hr, by simp [hu]⟩
    simp [create_request, hany]
  refine ⟨hfst st, hdup st', fun h => ?_⟩
  have h2 := hdup (create_request st school username status).1 ?_
  · rw [h2]
    exact ⟨rfl, rfl⟩
  · rw [hfst st h]
    exact ⟨{ id := st.nextRequestId, school := school, username := username, status := status },
      by simp, rfl⟩

/-- Witness for C8 amended: "alice" already has a request in `approvedStore`,
so a second insertion under another school is a Conflict leaving the store
unchanged. -/
theorem create_request_unique_witness :
    (∃ r ∈ approvedStore.requests, r.username = "alice") ∧
    create_request approvedStore "west" "alice" "pending" = (approvedStore, true) :=
  ⟨by decide,
   (create_request_unique emptyStore approvedStore "east" "west" "alice" "pending"
      "pending").2.1 (by decide)⟩

/-- C10: creating a ban for a (school, username) pair that already has a ban
row is a silent no-op — the duplicate insert error is swallowed, no failure is
reported (the handler is total), and the whole store, in particular the
existing row's `active` flag, is unchanged, so banning a previously banned,
now-lifted user does not re-activate the ban; for a fresh pair an active ban
row is appended. -/
theorem admin_new_ban_duplicate_noop (st : Store) (school username : String) :
    ((∃ b ∈ st.chat_bans, b.school = school ∧ b.username = username) →
      admin_new_ban st school username = st) ∧
    ((¬∃ b ∈ st.chat_bans, b.school = school ∧ b.username = username) →
      (admin_new_ban st school username).chat_bans =
        st.chat_bans ++
          [{ id := st.nextBanId, school := school, username := username, active := true }]) := by
  constructor
  · intro h
    rcases h with ⟨b, hb, h1, h2⟩
    have hany : (st.chat_bans.any fun b => b.school == school && b.username == username) = true :=
      List.any_eq_true.mpr ⟨b, hb, by simp [h1, h2]⟩
    simp [admin_new_ban, hany]
  · intro h
    have hany : (st.chat_bans.any fun b => b.school == school && b.username == username) = false := by
      rw [List.any_eq_false]
      intro b hb
      simp only [Bool.and_eq_true, beq_iff_eq]
      exact fun hc => h ⟨b, hb, hc.1, hc.2⟩
    simp [admin_new_ban, hany]

/-- Witness for C10: `liftedBanStore` holds an inactive ban for
("east", "alice"); creating a "new" ban is a no-op, so the ban stays
inactive. -/
theorem admin_new_ban_duplicate_noop_witness :
    (∃ b ∈ liftedBanStore.chat_bans, b.school = "east" ∧ b.username = "alice") ∧
    admin_new_ban liftedBanStore "east" "alice" = liftedBanStore :=
  ⟨by decide, (admin_new_ban_duplicate_noop liftedBanStore "east" "alice").1 (by decide)⟩

end UntisApp
